import Mathlib

/-!
Shallow embedding of the xv6 virtio-gpu driver (`kernel/virtiogpu.c`) and
proofs about it.

Modelling conventions:
* C `uint32`/`uint64` values are modelled as `Nat`; the ring cursors
  (`avail->idx`, `used->idx`, the driver `used_idx`) are modelled as
  unbounded monotonic counters, as in the design data model (`idx: u32`,
  monotonic producer/consumer cursors); wrap-around of a 32-bit cursor is
  outside the modelled range. Slot indexing uses `% NUM` exactly as the
  source does.
* pids are C `int`, modelled as `Int`; `myproc()` is modelled as
  `Option Int` carrying the current process pid (`none` = no process).
* `panic(...)` halts the system; it is modelled as a distinguished result
  constructor carrying the message and the state at the point of the
  panic (nothing after the panic executes, so no later mutation happens).
-/

namespace VirtioGpu

/-! ## Constants

`NUM`, the descriptor-ring size, and the virtio constant values live in
the repository `virtio.h`, which only this driver includes; the values
here are the standard virtio-mmio ones the design relies on
(`NUM = 8` per the source comment that the driver "asks for 8"). -/

/-- Ring size declared by the driver (xv6 `virtio.h`). -/
def NUM : Nat := 8

/-- The bytes of virt in ASCII, the expected transport signature. -/
def VIRTIO_MMIO_MAGIC_VALUE_EXPECTED : Nat := 0x74726976

/-- Virtio status bit: features negotiation complete. -/
def VIRTIO_CONFIG_S_FEATURES_OK : Nat := 8

/-- Descriptor flag: the chain continues at `next`. -/
def VRING_DESC_F_NEXT : Nat := 1

/-- Descriptor flag: the device writes this buffer. -/
def VRING_DESC_F_WRITE : Nat := 2

/-- The single accepted success response code ("OK, no payload"). -/
def VIRTIO_GPU_RESP_OK_NODATA : Nat := 0x1100

/-- Value of `sizeof(uint64)` on this platform. -/
def sizeof_uint64 : Nat := 8

/-- Value of `sizeof(uint32)`: the size of the single-u32 response status word. -/
def sizeof_uint32 : Nat := 4

/-! ## Framebuffer ownership (`acquire_fb` / `release_fb` / `holds_fb`)

The lock state is the global `locked_pid : int`, `NOT_LOCKED = -1` when
free. Each operation first obtains the current pid via
`get_current_pid()` and panics when it is `0` (no current process). -/

/-- Sentinel pid `NOT_LOCKED` meaning the framebuffer is unowned. -/
def NOT_LOCKED : Int := -1

/-- Model of `get_current_pid`: `myproc()` modelled as `Option Int`; returns `0`
when there is no current process, otherwise the process pid. -/
def get_current_pid (myproc : Option Int) : Int :=
  match myproc with
  | none => 0
  | some pid => pid

/-- Result of a framebuffer-ownership operation: either a `panic` with the
message, or a normal return carrying the C return value and the value of
`locked_pid` after the call. -/
inductive FbResult (α : Type) where
  | panic (msg : String)
  | ok (ret : α) (locked_pid : Int)
deriving DecidableEq, Repr

/-- Model of `acquire_fb`: grants the framebuffer to the current process when it is
unowned or already owned by it; denied (no mutation) otherwise. Returns the
C `has_acquired` value (1 granted / 0 denied) and the new `locked_pid`. -/
def acquire_fb (myproc : Option Int) (locked_pid : Int) : FbResult Int :=
  let this_pid := get_current_pid myproc
  if this_pid = 0 then .panic "acquire_fb called from null process"
  else if locked_pid = this_pid then .ok 1 locked_pid
  else if locked_pid = NOT_LOCKED then .ok 1 this_pid
  else .ok 0 locked_pid

/-- Model of `release_fb`: clears `locked_pid` only when the current process is the
holder; a no-op otherwise. -/
def release_fb (myproc : Option Int) (locked_pid : Int) : FbResult Unit :=
  let this_pid := get_current_pid myproc
  if this_pid = 0 then .panic "release_fb called from null process"
  else if locked_pid = this_pid then .ok () NOT_LOCKED
  else .ok () locked_pid

/-- Model of `holds_fb`: returns 1 when the current process is the holder, else 0;
never mutates `locked_pid`. -/
def holds_fb (myproc : Option Int) (locked_pid : Int) : FbResult Int :=
  let this_pid := get_current_pid myproc
  if this_pid = 0 then .panic "holds_fb called from null process"
  else .ok (if locked_pid = this_pid then 1 else 0) locked_pid

/-! ## Request submission (`bind_desc_and_fire` / `bind_desc_and_fire_us`)

Both submission paths write the same two-descriptor chain and publish it
with the same five-step sequence; the source duplicates the code, and so
does the model. Each function is modelled up to and including the
queue-notify write; the waiting tails (spin vs. sleep) are modelled by
the transition system below. -/

/-- A `struct virtq_desc`. -/
structure VirtqDesc where
  addr : Nat
  len : Nat
  flags : Nat
  next : Nat
deriving DecidableEq, Repr

/-- Driver-visible submission state: the two descriptor slots the driver
uses, the available ring, the global `response` word and its fixed
address. -/
structure SubmitState where
  desc0 : VirtqDesc
  desc1 : VirtqDesc
  /-- Field `avail->idx`, the monotonic producer cursor. -/
  availIdx : Nat
  /-- Array `avail->ring`; the source only ever indexes it modulo `NUM`. -/
  availRing : Nat → Nat
  /-- the global `response` status word. -/
  response : Nat
  /-- Address `&response`, the fixed link-time address of the response word. -/
  responseAddr : Nat

/-- One observable action of the publication sequence. -/
inductive SubEvent where
  /-- Store `avail->ring[slot] = val` -/
  | writeAvailRing (slot val : Nat)
  /-- Call `__sync_synchronize()`, a full memory barrier -/
  | barrier
  /-- Store `avail->idx = val` -/
  | writeAvailIdx (val : Nat)
  /-- Store `*V1(VIRTIO_MMIO_QUEUE_NOTIFY) = val` -/
  | notifyQueue (val : Nat)
deriving DecidableEq, Repr

/-- Model of `bind_desc_and_fire` (kernel-init path), descriptor setup and
publication: returns the new state and the ordered trace of ring/MMIO
actions. After the notify the source releases the lock and spin-waits on
`request_inflight` with interrupts transiently enabled. -/
def bind_desc_and_fire (req_addr req_size : Nat) (s : SubmitState) :
    SubmitState × List SubEvent :=
  let d0 : VirtqDesc :=
    { addr := req_addr, len := req_size, next := 1, flags := VRING_DESC_F_NEXT }
  let d1 : VirtqDesc :=
    { addr := s.responseAddr, len := sizeof_uint64,
      flags := VRING_DESC_F_WRITE, next := 0 }
  let ring := fun i => if i = s.availIdx % NUM then 0 else s.availRing i
  ({ s with desc0 := d0, desc1 := d1, response := 42,
            availRing := ring, availIdx := s.availIdx + 1 },
   [SubEvent.writeAvailRing (s.availIdx % NUM) 0, SubEvent.barrier,
    SubEvent.writeAvailIdx (s.availIdx + 1), SubEvent.barrier,
    SubEvent.notifyQueue 0])

/-- Model of `bind_desc_and_fire_us` (user-syscall path), descriptor setup and
publication; the body is a copy of the kernel-init path. After the notify
the source calls `sleep_until_dormant()` and releases the lock. -/
def bind_desc_and_fire_us (req_addr req_size : Nat) (s : SubmitState) :
    SubmitState × List SubEvent :=
  let d0 : VirtqDesc :=
    { addr := req_addr, len := req_size, next := 1, flags := VRING_DESC_F_NEXT }
  let d1 : VirtqDesc :=
    { addr := s.responseAddr, len := sizeof_uint64,
      flags := VRING_DESC_F_WRITE, next := 0 }
  let ring := fun i => if i = s.availIdx % NUM then 0 else s.availRing i
  ({ s with desc0 := d0, desc1 := d1, response := 42,
            availRing := ring, availIdx := s.availIdx + 1 },
   [SubEvent.writeAvailRing (s.availIdx % NUM) 0, SubEvent.barrier,
    SubEvent.writeAvailIdx (s.availIdx + 1), SubEvent.barrier,
    SubEvent.notifyQueue 0])

/-- A concrete submission state used by concrete evaluations. -/
def exampleSubmitState : SubmitState :=
  { desc0 := ⟨0, 0, 0, 0⟩, desc1 := ⟨0, 0, 0, 0⟩, availIdx := 0,
    availRing := fun _ => 0, response := 0, responseAddr := 4096 }

/-! ## Completion handler (`virtiogpu_isr`)

The handler acknowledges the interrupt, issues a barrier, then drains:
`while (used_idx != used->idx)` it reads the used-ring entry at
`used_idx % NUM`, panics unless its id is 0, panics unless the global
`response` equals `VIRTIO_GPU_RESP_OK_NODATA`, and advances `used_idx`;
after the loop it clears `request_inflight` and wakes sleepers. -/

/-- A `struct virtq_used_elem`. -/
structure UsedElem where
  id : Nat
  len : Nat
deriving DecidableEq, Repr

/-- State visible to the drain loop of `virtiogpu_isr`. -/
structure IsrState where
  /-- the driver local `used_idx` cursor. -/
  used_idx : Nat
  /-- Cursor `used->idx`, the device-published cursor. -/
  devUsedIdx : Nat
  /-- Array `used->ring`; the source only ever indexes it modulo `NUM`. -/
  usedRing : Nat → UsedElem
  /-- the global `response` status word (device-written). -/
  response : Nat
  /-- the global `request_inflight` flag (C `uint32`, 0 or 1). -/
  request_inflight : Nat

/-- Result of running the drain loop: a fatal `panic` (carrying the state
at the point of the panic — nothing later runs, so `request_inflight` is
left as it was), normal loop exit `done` (after which the source clears
`request_inflight`), or fuel exhaustion `spin` (the modelled loop was cut
off before exiting; never reached with adequate fuel). -/
inductive IsrResult where
  | panic (msg : String) (st : IsrState)
  | done (st : IsrState)
  | spin (st : IsrState)

/-- The drain loop of `virtiogpu_isr`, plus the `request_inflight = 0`
store that follows it. `fuel` bounds the number of iterations modelled;
the C loop itself has no bound. -/
def isrDrainLoop : Nat → IsrState → IsrResult
  | 0, st => .spin st
  | fuel + 1, st =>
    if st.used_idx = st.devUsedIdx then
      .done { st with request_inflight := 0 }
    else if (st.usedRing (st.used_idx % NUM)).id ≠ 0 then
      .panic "virtiogpu isr did not get 0" st
    else if st.response ≠ VIRTIO_GPU_RESP_OK_NODATA then
      .panic "did not get response OK_NO_DATA" st
    else
      isrDrainLoop fuel { st with used_idx := st.used_idx + 1 }

/-! ## Driver-level transition system

Abstract interleaving of submissions, device completions and handler
runs, for the temporal claims. A submission (either path) is enabled
only when `request_inflight` has been observed equal to 0: the syscall
path observes it in `sleep_until_dormant` under the lock before setting
it to 1, and each kernel-init caller runs only after the previous
previous-request spin-wait in `bind_desc_and_fire` observed 0
(`request_inflight` starts at 0 for the first). `subIdx` is a ghost
variable recording `avail->idx` as published by the most recent
submission. -/

/-- Abstract driver/device state for the temporal claims. -/
structure GpuState where
  /-- Flag `request_inflight` as a Bool. -/
  request_inflight : Bool
  /-- Cursor `avail->idx`, the producer cursor. -/
  availIdx : Nat
  /-- Cursor `used->idx`, the device-published completion cursor. -/
  devUsedIdx : Nat
  /-- the driver local `used_idx`. -/
  used_idx : Nat
  /-- ghost: `avail->idx` at (i.e. just after) the last submission. -/
  subIdx : Nat
deriving DecidableEq, Repr

/-- Driver state at the end of queue configuration: rings zeroed,
nothing inflight. -/
def initGpuState : GpuState :=
  { request_inflight := false, availIdx := 0, devUsedIdx := 0,
    used_idx := 0, subIdx := 0 }

/-- Net effect of a (successful) `virtiogpu_isr` run on the abstract
state: the drain loop advances `used_idx` to `used->idx`, then
`request_inflight` is cleared. -/
def isrDrainEffect (s : GpuState) : GpuState :=
  { s with used_idx := s.devUsedIdx, request_inflight := false }

/-- One step of the driver/device system.
* `submit`: a caller on either path (`viaSyscall = false`:
  `bind_desc_and_fire` from kernel init; `true`:
  `bind_desc_and_fire_us` from a syscall) publishes chain head 0 and
  increments `avail->idx`; enabled only after `request_inflight` was
  observed 0, and the caller sets it to 1.
* `devComplete`: the device consumes a published request and advances
  `used->idx`; it can only complete requests that were published.
* `isr`: `virtiogpu_isr` runs in response to a completion interrupt
  (there is an unconsumed used-ring entry) against a well-behaved device
  (chain id 0, success response), draining and clearing the flag. -/
inductive GStep : GpuState → GpuState → Prop where
  | submit (viaSyscall : Bool) (s : GpuState)
      (h : s.request_inflight = false) :
      GStep s { s with request_inflight := true, availIdx := s.availIdx + 1,
                       subIdx := s.availIdx + 1 }
  | devComplete (s : GpuState) (h : s.devUsedIdx < s.availIdx) :
      GStep s { s with devUsedIdx := s.devUsedIdx + 1 }
  | isr (s : GpuState) (h : s.used_idx ≠ s.devUsedIdx) :
      GStep s (isrDrainEffect s)

/-- States reachable from the post-initialization state. -/
inductive Reachable : GpuState → Prop where
  | init : Reachable initGpuState
  | step (s s' : GpuState) : Reachable s → GStep s s' → Reachable s'

/-- Inductive invariant of the driver/device system. -/
def GpuInv (s : GpuState) : Prop :=
  s.used_idx ≤ s.devUsedIdx ∧
  s.devUsedIdx ≤ s.availIdx ∧
  s.availIdx ≤ s.used_idx + 1 ∧
  (s.request_inflight = false → s.availIdx = s.used_idx) ∧
  (s.request_inflight = true → s.availIdx = s.subIdx)

/-! ## Initialization (`init_virtiogpu`)

Straight-line model of the handshake and queue configuration, as a
function of the values the device presents at each register read and of
the allocator answers. The returned `Nat` counts the `kalloc()` calls
made for ring memory before the function panicked or finished queue
setup (the source performs all three `kalloc`s and then checks them).
`.ok` means control reached the `DRIVER_OK` write and the subsequent
five bring-up commands, which are modelled by the transition system. -/

/-- Values the device presents to the `init_virtiogpu` register reads. -/
structure DevRegs where
  /-- Read of `*V1(VIRTIO_MMIO_MAGIC_VALUE)` -/
  magicValue : Nat
  /-- Read of `*V1(VIRTIO_MMIO_VERSION)` -/
  version : Nat
  /-- Read of `*V1(VIRTIO_MMIO_DEVICE_ID)` -/
  deviceId : Nat
  /-- the status register as read back after writing `FEATURES_OK`. -/
  statusReadback : Nat
  /-- Read of `*V1(VIRTIO_MMIO_QUEUE_READY)` after selecting queue 0. -/
  queueReady : Nat
  /-- Read of `*V1(VIRTIO_MMIO_QUEUE_NUM_MAX)` -/
  queueNumMax : Nat
deriving DecidableEq, Repr

/-- The allocator answers to the three ring `kalloc()` calls
(`none` = allocation failed / returned null). -/
structure AllocEnv where
  descPage : Option Nat
  availPage : Option Nat
  usedPage : Option Nat
deriving DecidableEq, Repr

/-- Outcome of initialization: a fatal `panic` or completion. -/
inductive InitOutcome where
  | panic (msg : String)
  | ok
deriving DecidableEq, Repr

/-- Model of `init_virtiogpu`: identity checks, status dance with `FEATURES_OK`
readback, queue-0 selection with the ready/depth checks, then the three
ring allocations. Second component: ring `kalloc()` calls performed. -/
def init_virtiogpu (d : DevRegs) (env : AllocEnv) : InitOutcome × Nat :=
  if d.magicValue ≠ VIRTIO_MMIO_MAGIC_VALUE_EXPECTED then
    (.panic "virtio1 not a virt device", 0)
  else if d.version ≠ 2 then
    (.panic "virtio1 got wrong version", 0)
  else if d.deviceId ≠ 16 then
    (.panic "virtio1 not a GPU", 0)
  else if d.statusReadback &&& VIRTIO_CONFIG_S_FEATURES_OK = 0 then
    (.panic "virtiogpu FEATURES_OK balked", 0)
  else if d.queueReady ≠ 0 then
    (.panic "virtiogpu should not be ready yet", 0)
  else if d.queueNumMax = 0 then
    (.panic "virtiogpu has no queue 0", 0)
  else if d.queueNumMax < NUM then
    (.panic "virtiogpu max queue too short (is it really?)", 0)
  else
    match env.descPage, env.availPage, env.usedPage with
    | some _, some _, some _ => (.ok, 3)
    | _, _, _ => (.panic "virtiogpu kalloc", 3)

/-- The three identity-fault messages of `init_virtiogpu`. -/
def identityFaultMsgs : List String :=
  ["virtio1 not a virt device", "virtio1 got wrong version", "virtio1 not a GPU"]

/-- A concrete pending-completion handler state with a well-behaved
device: two unconsumed used-ring entries, chain ids 0, success
response. -/
def exampleGoodIsrState : IsrState :=
  { used_idx := 0, devUsedIdx := 2, usedRing := fun _ => ⟨0, 8⟩,
    response := VIRTIO_GPU_RESP_OK_NODATA, request_inflight := 1 }

/-- A concrete pending-completion handler state whose used-ring entry
carries chain id 1 instead of 0. -/
def exampleBadIdIsrState : IsrState :=
  { used_idx := 0, devUsedIdx := 1, usedRing := fun _ => ⟨1, 8⟩,
    response := VIRTIO_GPU_RESP_OK_NODATA, request_inflight := 1 }

/-! ## Theorems -/

/-- Every reachable state of the driver/device system satisfies the
inductive invariant. -/
theorem reachable_gpuInv (s : GpuState) (h : Reachable s) : GpuInv s := by
  induction h with
  | init => simp [GpuInv, initGpuState]
  | step s s' hr hstep ih =>
    obtain ⟨h1, h2, h3, h4, h5⟩ := ih
    cases hstep with
    | submit viaSyscall s hif =>
      have h6 := h4 hif
      unfold GpuInv
      dsimp only
      exact ⟨by omega, by omega, by omega, by simp, fun _ => rfl⟩
    | devComplete s hlt =>
      unfold GpuInv
      dsimp only
      exact ⟨by omega, by omega, by omega, fun hx => h4 hx, fun hx => h5 hx⟩
    | isr s hne =>
      unfold GpuInv isrDrainEffect
      dsimp only
      refine ⟨le_refl _, h2, by omega, fun _ => by omega, fun hx => by simp at hx⟩

/-- C1: for every sequence of driver operations (submissions via
`bind_desc_and_fire` or `bind_desc_and_fire_us` — both enabled only
after `request_inflight` was observed 0, which is how the submit step is
guarded — and completions via `virtiogpu_isr`), never more than one
request is inflight: in every state produced by a step from a reachable
state, `avail->idx` exceeds the driver `used_idx` by at most one; and
whenever the step was a completion-handler run, the resulting `used_idx`
equals `avail->idx` as published at submission time for that request
(the ghost `subIdx`). -/
theorem single_request_inflight (s s' : GpuState)
    (hr : Reachable s) (hstep : GStep s s') :
    s'.availIdx ≤ s'.used_idx + 1 ∧
    (s.used_idx ≠ s.devUsedIdx → s' = isrDrainEffect s →
      s'.used_idx = s'.subIdx) := by
  have hinv' := reachable_gpuInv s' (Reachable.step s s' hr hstep)
  obtain ⟨h1, h2, h3, h4, h5⟩ := reachable_gpuInv s hr
  refine ⟨hinv'.2.2.1, ?_⟩
  intro hne hs'
  subst hs'
  unfold isrDrainEffect
  dsimp only
  cases hb : s.request_inflight with
  | false => have h6 := h4 hb; omega
  | true => have h6 := h5 hb; omega

/-- C1 witness: the run init → submit → device completion → handler, at
which point the handler run restores `used_idx = subIdx = avail->idx`. -/
theorem single_request_inflight_witness :
    (isrDrainEffect ⟨true, 1, 1, 0, 1⟩).availIdx ≤
      (isrDrainEffect ⟨true, 1, 1, 0, 1⟩).used_idx + 1 ∧
    ((⟨true, 1, 1, 0, 1⟩ : GpuState).used_idx ≠
        (⟨true, 1, 1, 0, 1⟩ : GpuState).devUsedIdx →
      isrDrainEffect ⟨true, 1, 1, 0, 1⟩ = isrDrainEffect ⟨true, 1, 1, 0, 1⟩ →
      (isrDrainEffect ⟨true, 1, 1, 0, 1⟩).used_idx =
        (isrDrainEffect ⟨true, 1, 1, 0, 1⟩).subIdx) :=
  single_request_inflight ⟨true, 1, 1, 0, 1⟩ (isrDrainEffect ⟨true, 1, 1, 0, 1⟩)
    (Reachable.step _ _
      (Reachable.step _ _ Reachable.init (GStep.submit false _ rfl))
      (GStep.devComplete _ (by decide)))
    (GStep.isr _ (by decide))

/-- On a well-behaved device (all used-ring chain ids 0, success
response), the drain loop runs to completion: with `k` pending entries
it exits having advanced `used_idx` to `used->idx` and then clears
`request_inflight`. -/
theorem isrDrainLoop_good (k : Nat) : ∀ st : IsrState,
    st.used_idx + k = st.devUsedIdx →
    (∀ i, (st.usedRing i).id = 0) →
    st.response = VIRTIO_GPU_RESP_OK_NODATA →
    isrDrainLoop (k + 1) st =
      .done { st with used_idx := st.devUsedIdx, request_inflight := 0 } := by
  induction k with
  | zero =>
    intro st h hids hresp
    have h0 : st.used_idx = st.devUsedIdx := by omega
    rw [isrDrainLoop, if_pos h0, ← h0]
  | succ k ih =>
    intro st h hids hresp
    have hne : ¬ st.used_idx = st.devUsedIdx := by omega
    have hid : ¬ (st.usedRing (st.used_idx % NUM)).id ≠ 0 := by
      simp [hids]
    have hr : ¬ st.response ≠ VIRTIO_GPU_RESP_OK_NODATA := by
      simp [hresp]
    rw [isrDrainLoop, if_neg hne, if_neg hid, if_neg hr]
    exact ih { st with used_idx := st.used_idx + 1 } (by dsimp only; omega)
      (fun i => hids i) hresp

/-- C4: in every reachable state of the driver/device system the local
cursor satisfies `used_idx ≤ used->idx`; and a completion-handler drain
run over `used->idx - used_idx` pending entries of a well-behaved device
terminates with `used_idx` advanced by exactly that count, i.e. equal to
the device-published `used->idx`. -/
theorem used_cursor_le_and_drain_exact (s : GpuState) (hr : Reachable s)
    (st : IsrState) (hle : st.used_idx ≤ st.devUsedIdx)
    (hids : ∀ i, (st.usedRing i).id = 0)
    (hresp : st.response = VIRTIO_GPU_RESP_OK_NODATA) :
    s.used_idx ≤ s.devUsedIdx ∧
    isrDrainLoop (st.devUsedIdx - st.used_idx + 1) st =
      .done { st with
                used_idx := st.used_idx + (st.devUsedIdx - st.used_idx),
                request_inflight := 0 } := by
  refine ⟨(reachable_gpuInv s hr).1, ?_⟩
  have h : st.used_idx + (st.devUsedIdx - st.used_idx) = st.devUsedIdx := by
    omega
  rw [h]
  exact isrDrainLoop_good (st.devUsedIdx - st.used_idx) st (by omega) hids hresp

/-- C4 witness: at the initial state and a concrete handler state with
two pending good completions, the drain consumes exactly both. -/
theorem used_cursor_le_and_drain_exact_witness :
    initGpuState.used_idx ≤ initGpuState.devUsedIdx ∧
    isrDrainLoop (exampleGoodIsrState.devUsedIdx -
        exampleGoodIsrState.used_idx + 1) exampleGoodIsrState =
      .done { exampleGoodIsrState with
                used_idx := exampleGoodIsrState.used_idx +
                  (exampleGoodIsrState.devUsedIdx -
                    exampleGoodIsrState.used_idx),
                request_inflight := 0 } :=
  used_cursor_le_and_drain_exact initGpuState Reachable.init
    exampleGoodIsrState (by decide) (fun _ => rfl) rfl

/-- C2: whenever `virtiogpu_isr` observes a pending completion
(`used_idx ≠ used->idx`) whose used-ring entry at `used_idx % NUM` has a
chain id other than 0, or whose response slot holds anything other than
`VIRTIO_GPU_RESP_OK_NODATA`, the drain takes the fatal `panic` path, and
the state at the panic still has `request_inflight` unchanged — it is
not cleared as a successful completion would clear it. -/
theorem isr_protocol_fault_fatal (st : IsrState) (fuel : Nat)
    (hpend : st.used_idx ≠ st.devUsedIdx)
    (hbad : (st.usedRing (st.used_idx % NUM)).id ≠ 0 ∨
      st.response ≠ VIRTIO_GPU_RESP_OK_NODATA) :
    ∃ msg stP, isrDrainLoop (fuel + 1) st = .panic msg stP ∧
      stP.request_inflight = st.request_inflight := by
  rcases hbad with hid | hresp
  · exact ⟨"virtiogpu isr did not get 0", st,
      by rw [isrDrainLoop, if_neg hpend, if_pos hid], rfl⟩
  · by_cases hid : (st.usedRing (st.used_idx % NUM)).id ≠ 0
    · exact ⟨"virtiogpu isr did not get 0", st,
        by rw [isrDrainLoop, if_neg hpend, if_pos hid], rfl⟩
    · exact ⟨"did not get response OK_NO_DATA", st,
        by rw [isrDrainLoop, if_neg hpend, if_neg hid, if_pos hresp], rfl⟩

/-- C2 witness: a pending entry with chain id 1 makes the handler
panic, with `request_inflight` left at 1. -/
theorem isr_protocol_fault_fatal_witness :
    ∃ msg stP, isrDrainLoop 1 exampleBadIdIsrState = .panic msg stP ∧
      stP.request_inflight = exampleBadIdIsrState.request_inflight :=
  isr_protocol_fault_fatal exampleBadIdIsrState 0 (by decide)
    (Or.inl (by decide))

/-- C3: on both submission paths the publication sequence is exactly:
write descriptor-chain head 0 into the available ring at slot
`idx % NUM`; full memory barrier; increment `avail->idx` by one; second
full memory barrier; write 0 (the control-queue index) to the
queue-notify register — and the resulting state indeed has the head 0
stored at that slot and the cursor incremented by one. -/
theorem publication_sequence (req_addr req_size : Nat) (s : SubmitState) :
    (bind_desc_and_fire req_addr req_size s).2 =
      [SubEvent.writeAvailRing (s.availIdx % NUM) 0, SubEvent.barrier,
       SubEvent.writeAvailIdx (s.availIdx + 1), SubEvent.barrier,
       SubEvent.notifyQueue 0] ∧
    (bind_desc_and_fire_us req_addr req_size s).2 =
      [SubEvent.writeAvailRing (s.availIdx % NUM) 0, SubEvent.barrier,
       SubEvent.writeAvailIdx (s.availIdx + 1), SubEvent.barrier,
       SubEvent.notifyQueue 0] ∧
    (bind_desc_and_fire req_addr req_size s).1.availRing
      (s.availIdx % NUM) = 0 ∧
    (bind_desc_and_fire req_addr req_size s).1.availIdx = s.availIdx + 1 ∧
    (bind_desc_and_fire_us req_addr req_size s).1.availRing
      (s.availIdx % NUM) = 0 ∧
    (bind_desc_and_fire_us req_addr req_size s).1.availIdx =
      s.availIdx + 1 := by
  refine ⟨rfl, rfl, ?_, rfl, ?_, rfl⟩ <;> simp [bind_desc_and_fire,
    bind_desc_and_fire_us]

/-- C3 witness: the publication trace at a concrete state. -/
theorem publication_sequence_witness :
    (bind_desc_and_fire 0 24 exampleSubmitState).2 =
      [SubEvent.writeAvailRing (exampleSubmitState.availIdx % NUM) 0,
       SubEvent.barrier,
       SubEvent.writeAvailIdx (exampleSubmitState.availIdx + 1),
       SubEvent.barrier, SubEvent.notifyQueue 0] :=
  (publication_sequence 0 24 exampleSubmitState).1

/-- C5 (amended): on both paths descriptor 1 is device-writable
(`flags = VRING_DESC_F_WRITE` only, so no `NEXT` bit), terminal
(`next = 0`), addressed at the response status slot — but its declared
length is `sizeof(uint64)` (8 bytes), strictly wider than the 4-byte
single-u32 status word the claim states. -/
theorem response_descriptor_shape (req_addr req_size : Nat)
    (s : SubmitState) :
    (bind_desc_and_fire req_addr req_size s).1.desc1 =
      { addr := s.responseAddr, len := sizeof_uint64,
        flags := VRING_DESC_F_WRITE, next := 0 } ∧
    (bind_desc_and_fire_us req_addr req_size s).1.desc1 =
      { addr := s.responseAddr, len := sizeof_uint64,
        flags := VRING_DESC_F_WRITE, next := 0 } ∧
    sizeof_uint32 < sizeof_uint64 :=
  ⟨rfl, rfl, by decide⟩

/-- C5 counterexample: at a concrete submission the declared length of
descriptor 1 is `sizeof(uint64) = 8`, not the size of the single-u32
status word (4) the claim asserts. -/
theorem response_descriptor_len_not_u32 :
    (bind_desc_and_fire 0 24 exampleSubmitState).1.desc1.len =
      sizeof_uint64 ∧
    (bind_desc_and_fire 0 24 exampleSubmitState).1.desc1.len ≠
      sizeof_uint32 ∧
    (bind_desc_and_fire_us 0 24 exampleSubmitState).1.desc1.len ≠
      sizeof_uint32 :=
  ⟨rfl, by decide, by decide⟩

/-- C6: once the handshake reaches queue configuration (identity and
feature checks passed), a nonzero queue-ready register, a zero maximum
queue depth, or a maximum depth below `NUM` each raises the fatal fault
with zero ring `kalloc()` calls performed — before any ring memory is
allocated. -/
theorem queue_setup_fault_before_alloc (d : DevRegs) (env : AllocEnv)
    (hm : d.magicValue = VIRTIO_MMIO_MAGIC_VALUE_EXPECTED)
    (hv : d.version = 2) (hid : d.deviceId = 16)
    (hfeat : d.statusReadback &&& VIRTIO_CONFIG_S_FEATURES_OK ≠ 0) :
    (d.queueReady ≠ 0 →
      init_virtiogpu d env = (.panic "virtiogpu should not be ready yet", 0)) ∧
    (d.queueReady = 0 → d.queueNumMax = 0 →
      init_virtiogpu d env = (.panic "virtiogpu has no queue 0", 0)) ∧
    (d.queueReady = 0 → d.queueNumMax ≠ 0 → d.queueNumMax < NUM →
      init_virtiogpu d env =
        (.panic "virtiogpu max queue too short (is it really?)", 0)) := by
  refine ⟨?_, ?_, ?_⟩
  · intro hq
    simp [init_virtiogpu, hm, hv, hid, hfeat, hq]
  · intro hq hmax
    simp [init_virtiogpu, hm, hv, hid, hfeat, hq, hmax]
  · intro hq hmax hlt
    simp [init_virtiogpu, hm, hv, hid, hfeat, hq, hmax, hlt]

/-- C6 witness: a device that passes identity and features but reports
the queue already ready faults before any allocation. -/
theorem queue_setup_fault_before_alloc_witness :
    init_virtiogpu ⟨0x74726976, 2, 16, 8, 1, 8⟩ ⟨some 1, some 2, some 3⟩ =
      (.panic "virtiogpu should not be ready yet", 0) :=
  (queue_setup_fault_before_alloc ⟨0x74726976, 2, 16, 8, 1, 8⟩
    ⟨some 1, some 2, some 3⟩ rfl rfl rfl (by decide)).1 (by decide)

/-- A device matching all three identity checks drives `init_virtiogpu`
to one of the later outcomes: a post-identity fault or completion. -/
theorem init_outcome_of_match (d : DevRegs) (env : AllocEnv)
    (h1 : d.magicValue = VIRTIO_MMIO_MAGIC_VALUE_EXPECTED)
    (h2 : d.version = 2) (h3 : d.deviceId = 16) :
    (init_virtiogpu d env).1 = .panic "virtiogpu FEATURES_OK balked" ∨
    (init_virtiogpu d env).1 = .panic "virtiogpu should not be ready yet" ∨
    (init_virtiogpu d env).1 = .panic "virtiogpu has no queue 0" ∨
    (init_virtiogpu d env).1 =
      .panic "virtiogpu max queue too short (is it really?)" ∨
    (init_virtiogpu d env).1 = .panic "virtiogpu kalloc" ∨
    (init_virtiogpu d env).1 = .ok := by
  rw [init_virtiogpu, if_neg (by simp [h1]), if_neg (by simp [h2]),
    if_neg (by simp [h3])]
  split
  · simp
  · split
    · simp
    · split
      · simp
      · split
        · simp
        · split <;> simp

/-- Outcomes of `init_virtiogpu` past the identity checks are never one
of the three identity-fault panics. -/
theorem init_no_identity_fault_of_match (d : DevRegs) (env : AllocEnv)
    (h1 : d.magicValue = VIRTIO_MMIO_MAGIC_VALUE_EXPECTED)
    (h2 : d.version = 2) (h3 : d.deviceId = 16) :
    ∀ m ∈ identityFaultMsgs, (init_virtiogpu d env).1 ≠ .panic m := by
  intro m hm hcontra
  simp only [identityFaultMsgs] at hm
  fin_cases hm <;>
    rcases init_outcome_of_match d env h1 h2 h3 with h | h | h | h | h | h <;>
    rw [h] at hcontra <;>
    exact absurd hcontra (by decide)

/-- C7: `init_virtiogpu` raises a fatal identity fault (one of the three
identity panic messages) if and only if the magic register differs from
the expected signature, the version register differs from 2, or the
device-id register differs from 16; when all three match the handshake
proceeds past the identity checks without identity fault. -/
theorem identity_fault_iff (d : DevRegs) (env : AllocEnv) :
    (∃ m ∈ identityFaultMsgs, (init_virtiogpu d env).1 = .panic m) ↔
      (d.magicValue ≠ VIRTIO_MMIO_MAGIC_VALUE_EXPECTED ∨
        d.version ≠ 2 ∨ d.deviceId ≠ 16) := by
  constructor
  · rintro ⟨m, hmem, hinit⟩
    by_contra hno
    push_neg at hno
    obtain ⟨h1, h2, h3⟩ := hno
    exact init_no_identity_fault_of_match d env h1 h2 h3 m hmem hinit
  · intro h
    by_cases h1 : d.magicValue = VIRTIO_MMIO_MAGIC_VALUE_EXPECTED
    · by_cases h2 : d.version = 2
      · by_cases h3 : d.deviceId = 16
        · rcases h with h | h | h <;> exact absurd (by assumption) h
        · refine ⟨"virtio1 not a GPU", by decide, ?_⟩
          simp [init_virtiogpu, h1, h2, h3]
      · refine ⟨"virtio1 got wrong version", by decide, ?_⟩
        simp [init_virtiogpu, h1, h2]
    · refine ⟨"virtio1 not a virt device", by decide, ?_⟩
      simp [init_virtiogpu, h1]

/-- C7 witness: at a concrete device with a wrong magic value the
identity fault is raised, and the equivalence instantiates. -/
theorem identity_fault_iff_witness :
    (∃ m ∈ identityFaultMsgs,
      (init_virtiogpu ⟨0, 2, 16, 8, 0, 8⟩ ⟨some 1, some 2, some 3⟩).1 =
        .panic m) ↔
      ((0 : Nat) ≠ VIRTIO_MMIO_MAGIC_VALUE_EXPECTED ∨
        (2 : Nat) ≠ 2 ∨ (16 : Nat) ≠ 16) :=
  identity_fault_iff ⟨0, 2, 16, 8, 0, 8⟩ ⟨some 1, some 2, some 3⟩

/-- C8 counterexample: with the framebuffer held by pid 2, `acquire_fb`
by pid 1 returns denied (0) — not granted — refuting the claim for the
lock state "held by a different pid" that its universal quantifier
includes. -/
theorem acquire_fb_foreign_holder_denied :
    acquire_fb (some 1) 2 = FbResult.ok 0 2 ∧
    acquire_fb (some 1) 2 ≠ FbResult.ok 1 2 := by
  exact ⟨rfl, by decide⟩

/-- C8 (amended): for every pid and every lock state that is unlocked or
already held by that pid, `acquire_fb` called twice in a row by the same
pid returns granted both times and leaves the lock held by that pid; and
for every pid and state, `release_fb` by a non-holder is a no-op leaving
the state unchanged. -/
theorem acquire_fb_idempotent_release_fb_foreign_noop
    (pid lk rpid rlk : Int) (hpid : pid ≠ 0)
    (hfree : lk = NOT_LOCKED ∨ lk = pid)
    (hrpid : rpid ≠ 0) (hfor : rlk ≠ rpid) :
    acquire_fb (some pid) lk = .ok 1 pid ∧
    acquire_fb (some pid) pid = .ok 1 pid ∧
    release_fb (some rpid) rlk = .ok () rlk := by
  refine ⟨?_, ?_, ?_⟩
  · rcases hfree with h | h
    · subst h
      by_cases hnl : NOT_LOCKED = pid
      · simp [acquire_fb, get_current_pid, hpid, hnl]
      · simp [acquire_fb, get_current_pid, hpid, hnl]
    · subst h
      simp [acquire_fb, get_current_pid, hpid]
  · simp [acquire_fb, get_current_pid, hpid]
  · simp [release_fb, get_current_pid, hrpid, hfor]

/-- C8 witness: pid 10 acquires an unlocked framebuffer twice, both
granted; pid 20 releases while pid 10 holds — a no-op. -/
theorem acquire_fb_idempotent_witness :
    acquire_fb (some 10) (-1) = FbResult.ok 1 10 ∧
    acquire_fb (some 10) 10 = FbResult.ok 1 10 ∧
    release_fb (some 20) 10 = FbResult.ok () 10 :=
  acquire_fb_idempotent_release_fb_foreign_noop 10 (-1) 20 10
    (by decide) (Or.inl rfl) (by decide) (by decide)

/-- C9: for distinct (positive, i.e. genuine) pids, after `acquire_fb`
grants the framebuffer to `pidA`, the holder is `pidA`, and a subsequent
`acquire_fb` by `pidB` returns denied (0) with the holder unchanged
(`locked_pid` still `pidA`). -/
theorem acquire_fb_mutual_exclusion (pidA pidB lk lk2 : Int)
    (hA : 0 < pidA) (hB : 0 < pidB) (hne : pidB ≠ pidA)
    (hgrant : acquire_fb (some pidA) lk = .ok 1 lk2) :
    lk2 = pidA ∧ acquire_fb (some pidB) lk2 = .ok 0 pidA := by
  have hA0 : pidA ≠ 0 := by omega
  have hB0 : pidB ≠ 0 := by omega
  have hAnl : pidA ≠ NOT_LOCKED := by
    simp only [NOT_LOCKED]
    omega
  simp only [acquire_fb, get_current_pid] at hgrant
  rw [if_neg hA0] at hgrant
  have hlk2 : lk2 = pidA := by
    by_cases hl1 : lk = pidA
    · rw [if_pos hl1] at hgrant
      simp only [FbResult.ok.injEq] at hgrant
      omega
    · rw [if_neg hl1] at hgrant
      by_cases hl2 : lk = NOT_LOCKED
      · rw [if_pos hl2] at hgrant
        simp only [FbResult.ok.injEq] at hgrant
        omega
      · rw [if_neg hl2] at hgrant
        simp only [FbResult.ok.injEq] at hgrant
        omega
  rw [hlk2]
  refine ⟨rfl, ?_⟩
  have hne2 : ¬ pidA = pidB := fun h => hne h.symm
  simp [acquire_fb, get_current_pid, hB0, hne2, hAnl]

/-- C9 witness: pid 10 acquires the unlocked framebuffer; pid 20 is then
denied and the holder stays 10. -/
theorem acquire_fb_mutual_exclusion_witness :
    (10 : Int) = 10 ∧ acquire_fb (some 20) 10 = FbResult.ok 0 10 :=
  acquire_fb_mutual_exclusion 10 20 (-1) 10 (by decide) (by decide)
    (by decide) (by decide)

/-- C10: each of `acquire_fb`, `release_fb`, `holds_fb` panics exactly
when `get_current_pid` returns 0 (no current process); with a current
process of pid `p ≠ 0` each operates on that pid: acquire grants on
unlocked or own-held state and otherwise denies, release clears only an
own-held lock, holds reports whether `locked_pid = p`. -/
theorem fb_ops_panic_iff_null_process (mp : Option Int) (lk : Int) :
    ((∃ m, acquire_fb mp lk = .panic m) ↔ get_current_pid mp = 0) ∧
    ((∃ m, release_fb mp lk = .panic m) ↔ get_current_pid mp = 0) ∧
    ((∃ m, holds_fb mp lk = .panic m) ↔ get_current_pid mp = 0) ∧
    (∀ p : Int, mp = some p → p ≠ 0 →
      acquire_fb mp lk = (if lk = p then .ok 1 lk
        else if lk = NOT_LOCKED then .ok 1 p else .ok 0 lk) ∧
      release_fb mp lk = (if lk = p then .ok () NOT_LOCKED
        else .ok () lk) ∧
      holds_fb mp lk = .ok (if lk = p then 1 else 0) lk) := by
  by_cases h0 : get_current_pid mp = 0
  · refine ⟨?_, ?_, ?_, ?_⟩
    · exact iff_of_true
        ⟨"acquire_fb called from null process", by simp [acquire_fb, h0]⟩ h0
    · exact iff_of_true
        ⟨"release_fb called from null process", by simp [release_fb, h0]⟩ h0
    · exact iff_of_true
        ⟨"holds_fb called from null process", by simp [holds_fb, h0]⟩ h0
    · intro p hp hpne
      rw [hp] at h0
      exact absurd h0 hpne
  · refine ⟨?_, ?_, ?_, ?_⟩
    · refine iff_of_false ?_ h0
      rintro ⟨m, hm⟩
      rw [acquire_fb, if_neg h0] at hm
      split at hm
      · exact FbResult.noConfusion hm
      · split at hm
        · exact FbResult.noConfusion hm
        · exact FbResult.noConfusion hm
    · refine iff_of_false ?_ h0
      rintro ⟨m, hm⟩
      rw [release_fb, if_neg h0] at hm
      split at hm
      · exact FbResult.noConfusion hm
      · exact FbResult.noConfusion hm
    · refine iff_of_false ?_ h0
      rintro ⟨m, hm⟩
      rw [holds_fb, if_neg h0] at hm
      exact FbResult.noConfusion hm
    · intro p hp hpne
      subst hp
      refine ⟨?_, ?_, ?_⟩
      · rw [acquire_fb, if_neg h0]
        simp [get_current_pid]
      · rw [release_fb, if_neg h0]
        simp [get_current_pid]
      · rw [holds_fb, if_neg h0]
        simp [get_current_pid]

/-- C10 witness: with no current process all three operations panic;
with pid 7 and an unlocked framebuffer they operate on pid 7. -/
theorem fb_ops_panic_iff_null_process_witness :
    (∃ m, acquire_fb none 5 = FbResult.panic m) ∧
    (∃ m, release_fb none 5 = FbResult.panic m) ∧
    (∃ m, holds_fb none 5 = FbResult.panic m) ∧
    holds_fb (some 7) (-1) = FbResult.ok 0 (-1) :=
  ⟨(fb_ops_panic_iff_null_process none 5).1.mpr rfl,
   (fb_ops_panic_iff_null_process none 5).2.1.mpr rfl,
   (fb_ops_panic_iff_null_process none 5).2.2.1.mpr rfl,
   by
    have h := ((fb_ops_panic_iff_null_process (some 7) (-1)).2.2.2 7 rfl
      (by decide)).2.2
    simpa using h⟩

end VirtioGpu
